import Mathlib

/-!
Shallow embedding of the role-based access-control core of the
razgovor-erp application: the route permission table and matcher
(`app/config/routes.ts`), the navigation guard middleware
(`app/middleware/*`), the session cache verbs of
`app/composables/useAuth.ts` (`fetchProfile`, `logout`, `register`),
the page-level role checks of `app/pages/sales/index.vue` and the
tariffs page, and the row-level security policies of
`database/students-schema.sql`.
-/

namespace Razgovor

/-- The closed role enumeration of `types/role.ts` / the `UserRole` union. -/
inductive UserRole where
  | superadmin
  | head_sales
  | sales
  | head_teaching
  | teacher
deriving DecidableEq, Repr

/-- `RoutePermission` record of `app/config/routes.ts`. -/
structure RoutePermission where
  path : String
  allowedRoles : List UserRole
  description : Option String := none
deriving DecidableEq, Repr

/-- The `protectedRoutes` table of `app/config/routes.ts`, transcribed entry
by entry in declaration order. -/
def protectedRoutes : List RoutePermission :=
  [ { path := "/users", allowedRoles := [.superadmin],
      description := some "User management - superadmin only" },
    { path := "/users/*", allowedRoles := [.superadmin],
      description := some "User management sub-pages - superadmin only" },
    { path := "/students", allowedRoles := [.teacher, .head_teaching, .superadmin],
      description := some "Student management - teaching staff" },
    { path := "/students/*", allowedRoles := [.teacher, .head_teaching, .superadmin],
      description := some "Student management sub-pages - teaching staff" },
    { path := "/lessons", allowedRoles := [.teacher, .head_teaching, .superadmin],
      description := some "Lesson management - teaching staff" },
    { path := "/lessons/*", allowedRoles := [.teacher, .head_teaching, .superadmin],
      description := some "Lesson management sub-pages - teaching staff" },
    { path := "/evaluations", allowedRoles := [.teacher, .head_teaching, .superadmin],
      description := some "Student evaluations - teaching staff" },
    { path := "/evaluations/*", allowedRoles := [.teacher, .head_teaching, .superadmin],
      description := some "Student evaluations sub-pages - teaching staff" },
    { path := "/leads", allowedRoles := [.sales, .head_sales, .superadmin],
      description := some "Lead management - sales staff" },
    { path := "/leads/*", allowedRoles := [.sales, .head_sales, .superadmin],
      description := some "Lead management sub-pages - sales staff" },
    { path := "/reports", allowedRoles := [.head_teaching, .head_sales, .superadmin],
      description := some "Reports and analytics - management only" },
    { path := "/reports/*", allowedRoles := [.head_teaching, .head_sales, .superadmin],
      description := some "Reports sub-pages - management only" },
    { path := "/settings", allowedRoles := [.head_teaching, .head_sales, .superadmin],
      description := some "System settings - management only" },
    { path := "/settings/*", allowedRoles := [.head_teaching, .head_sales, .superadmin],
      description := some "Settings sub-pages - management only" } ]

/-- JavaScript `s.endsWith(suffix)` on the character sequence of `s`. -/
def jsEndsWith (s suffix : String) : Bool :=
  suffix.data.isSuffixOf s.data

/-- JavaScript `s.startsWith(pre)` on the character sequence of `s`. -/
def jsStartsWith (s pre : String) : Bool :=
  pre.data.isPrefixOf s.data

/-- JavaScript `s.slice(0, -2)`: the string without its last two characters. -/
def jsSliceDropTwo (s : String) : String :=
  String.mk s.data.dropLast.dropLast

/-- The matcher predicate used inside `canAccessRoute`
(`app/config/routes.ts`): a wildcard pattern `<prefix>/*` matches via
`routePath.startsWith(basePath)` where `basePath = route.path.slice(0, -2)`;
any other pattern matches by exact equality. -/
def routeMatches (route : RoutePermission) (routePath : String) : Bool :=
  if jsEndsWith route.path "/*" then
    jsStartsWith routePath (jsSliceDropTwo route.path)
  else
    route.path == routePath

/-- `canAccessRoute` of `app/config/routes.ts`: null role is denied; the
first table entry whose pattern matches decides; no matching entry means
the route is public (allowed). -/
def canAccessRoute (userRole : Option UserRole) (routePath : String) : Bool :=
  match userRole with
  | none => false
  | some role =>
    match protectedRoutes.find? (fun route => routeMatches route routePath) with
    | none => true
    | some routePermission => routePermission.allowedRoles.contains role

/-- The profile record cached by `useAuth.ts` (`globalAuthState.profile`):
`id, email, role, full_name, is_approved` selected from `profiles`. -/
structure Profile where
  id : String
  email : String
  role : UserRole
  full_name : Option String := none
  is_approved : Bool
deriving DecidableEq, Repr

/-- The session state visible to the guard and the `useAuth` verbs:
`user` is the identity observable (`useSupabaseUser()`, carrying the auth
uid when signed in), the rest mirrors `globalAuthState` of `useAuth.ts`
(`isInitialized` backs the exposed `isProfileLoaded`). -/
structure AuthState where
  user : Option String
  profile : Option Profile
  isInitialized : Bool
  isFetching : Bool
  isLoading : Bool
  error : Option String
deriving DecidableEq, Repr

/-- `isApproved` computed of `useAuth.ts`: `profile?.is_approved ?? false`. -/
def stateIsApproved (st : AuthState) : Bool :=
  match st.profile with
  | some p => p.is_approved
  | none => false

/-- `hasAnyRole` of `useAuth.ts`: true when a profile is cached and its
role is in the given list. -/
def hasAnyRole (profile : Option Profile) (roles : List UserRole) : Bool :=
  match profile with
  | some p => roles.contains p.role
  | none => false

/-- The `publicRoutes` list of the auth route middleware. -/
def publicRoutes : List String := ["/auth/login", "/auth/register"]

/-- The auth route middleware (`app/middleware/auth.global.ts`), as the pure
function from session state and target path to the value it returns:
`some target` for `return navigateTo(target)` and `none` for a plain
`return` / falling off the end (the middleware produces no redirect). -/
def authMiddleware (st : AuthState) (toPath : String) : Option String :=
  let isPublicRoute := publicRoutes.contains toPath
  match st.user with
  | none =>
    if isPublicRoute then none else some "/auth/login"
  | some _ =>
    if isPublicRoute then
      if !st.isInitialized || st.profile.isNone then none
      else if !(stateIsApproved st) then some "/auth/pending-approval"
      else some "/"
    else
      if !st.isInitialized || st.profile.isNone then none
      else if !(stateIsApproved st) then
        if toPath == "/auth/pending-approval" then none
        else some "/auth/pending-approval"
      else if toPath == "/auth/pending-approval" then some "/"
      else if !(canAccessRoute (st.profile.map Profile.role) toPath) then some "/403"
      else none

/-- The up-front role check of `app/pages/sales/index.vue`: after the
profile loads, the page throws a 403 `createError` unless
`hasAnyRole(['sales', 'head_sales'])`. `true` means the page view renders. -/
def salesIndexPageAllows (profile : Option Profile) : Bool :=
  hasAnyRole profile [.sales, .head_sales]

/-- The up-front role check of the tariffs management page: it throws the
403 `createError` only when running on the client AND a profile is cached
AND that role is not `superadmin`; in every other case (a null profile
included) the view renders and fetches its data. `true` means it throws. -/
def tariffsPageThrowsForbidden (isClient : Bool) (profile : Option Profile) : Bool :=
  isClient &&
    (match profile with
     | some p => !(p.role == UserRole.superadmin)
     | none => false)

/-- Outcome of the data-store call inside `fetchProfile`: the selected
profile row, or the `.single()` error (row missing / store failure). -/
inductive FetchResult where
  | ok (p : Profile)
  | dbError (msg : String)
deriving DecidableEq, Repr

/-- Result of one `fetchProfile` call: the session state it leaves behind,
how many store requests it issued, and the value it returned. -/
structure FetchOutcome where
  state : AuthState
  requests : Nat
  returned : Option Profile
deriving DecidableEq, Repr

/-- `fetchProfile(force)` of `useAuth.ts` as a state transition. Guards in
source order: no user → return; a fetch already in flight and not forcing →
return; cached profile and initialized and not forcing → return the cache.
Otherwise `isFetching` is raised, one store request is issued (`result` is
its outcome), and on success the profile is installed and `isInitialized`
set; the `finally` clears `isFetching`. On a store error the function only
logs to the console and returns — it touches neither `profile`,
`isInitialized` nor `error`. -/
def fetchProfile (st : AuthState) (force : Bool) (result : FetchResult) : FetchOutcome :=
  if st.user.isNone then
    { state := st, requests := 0, returned := none }
  else if st.isFetching && !force then
    { state := st, requests := 0, returned := none }
  else if st.profile.isSome && st.isInitialized && !force then
    { state := st, requests := 0, returned := st.profile }
  else
    match result with
    | .ok p =>
      { state := { st with profile := some p, isInitialized := true, isFetching := false },
        requests := 1, returned := some p }
    | .dbError _ =>
      { state := { st with isFetching := false }, requests := 1, returned := none }

/-- The session state at the moment `logout` invokes `navigateTo`: the
profile and `isInitialized` have already been cleared (and `isLoading`
raised, `error` reset) before the navigation happens. -/
def logoutPreNavState (st : AuthState) : AuthState :=
  { st with isLoading := true, error := none, profile := none, isInitialized := false }

/-- `logout()` of `useAuth.ts` as a state transition, parameterised by the
identity provider's `signOut` outcome. On a signOut error the function
records the error and returns without clearing anything; on success it
clears `profile` and `isInitialized` and then navigates to `/auth/login`
(the returned `Option String` is the navigation target). -/
def logout (st : AuthState) (signOutError : Option String) : AuthState × Option String :=
  match signOutError with
  | some msg =>
    ({ st with isLoading := false, error := some msg }, none)
  | none =>
    ({ logoutPreNavState st with isLoading := false }, some "/auth/login")

/-- The `signUp` payload that `register(email, password, fullName, role)` of
`useAuth.ts` hands to the identity provider: credentials plus
`options.data = { role, full_name }`. -/
structure SignUpRequest where
  email : String
  password : String
  metadataRole : UserRole
  metadataFullName : String
deriving DecidableEq, Repr

/-- `register` of `useAuth.ts`, restricted to the request it issues: the
caller-supplied role and full name are forwarded verbatim into the user
metadata. No session or privilege is consulted. -/
def registerRequest (email password fullName : String) (role : UserRole) : SignUpRequest :=
  { email := email, password := password,
    metadataRole := role, metadataFullName := fullName }

/-- The `availableRoles` offered by the registration form
(`app/pages/auth/register.vue`), values only. -/
def availableRoles : List UserRole :=
  [.teacher, .sales, .head_teaching, .head_sales]

/-- A `students` row, the columns the row policies consult. -/
structure StudentRow where
  id : String
  manager_id : String
deriving DecidableEq, Repr

/-- A `student_payments` row, the columns the row policies consult. -/
structure PaymentRow where
  id : String
  student_id : String
deriving DecidableEq, Repr

/-- A `profiles` row, the columns the row policies consult. -/
structure ProfileRow where
  id : String
  role : UserRole
deriving DecidableEq, Repr

/-- The database tables the row-security predicates range over. -/
structure Database where
  profiles : List ProfileRow
  students : List StudentRow
deriving DecidableEq, Repr

/-- The four SQL statement kinds a row policy is declared `FOR`. -/
inductive SqlOp where
  | select
  | insert
  | update
  | delete
deriving DecidableEq, Repr

/-- The shared `USING` / `WITH CHECK` body of the four `students` policies in
`database/students-schema.sql`: an `EXISTS` over `profiles` for a sales-staff
profile whose id is `auth.uid()` and owns the row, `OR` an `EXISTS` over
`profiles` for a superadmin profile whose id is `auth.uid()`. -/
def studentsPolicyBody (db : Database) (uid : String) (s : StudentRow) : Bool :=
  (db.profiles.any fun p =>
    p.id == uid && (p.role == UserRole.sales || p.role == UserRole.head_sales)
      && s.manager_id == p.id)
  ||
  (db.profiles.any fun p =>
    p.id == uid && p.role == UserRole.superadmin)

/-- The `students` row policies of `database/students-schema.sql`: one policy
per operation ("Sales managers can view / create / update / delete their own
students"), each with the same predicate body. -/
def studentsPolicy (op : SqlOp) (db : Database) (uid : String) (s : StudentRow) : Bool :=
  match op with
  | .select => studentsPolicyBody db uid s
  | .insert => studentsPolicyBody db uid s
  | .update => studentsPolicyBody db uid s
  | .delete => studentsPolicyBody db uid s

/-- The shared `USING` / `WITH CHECK` body of the four `student_payments`
policies in `database/students-schema.sql`: an `EXISTS` over
`students JOIN profiles ON profiles.id = auth.uid()` requiring
`students.id = student_payments.student_id` and either sales-staff ownership
of the parent student or the superadmin role. -/
def paymentsPolicyBody (db : Database) (uid : String) (pay : PaymentRow) : Bool :=
  db.students.any fun s =>
    db.profiles.any fun p =>
      p.id == uid && s.id == pay.student_id
        && ((p.role == UserRole.sales || p.role == UserRole.head_sales)
              && s.manager_id == p.id
            || p.role == UserRole.superadmin)

/-- The `student_payments` row policies of `database/students-schema.sql`:
one policy per operation ("Users can view / create / update / delete payments
for their students"), each with the same predicate body. -/
def paymentsPolicy (op : SqlOp) (db : Database) (uid : String) (pay : PaymentRow) : Bool :=
  match op with
  | .select => paymentsPolicyBody db uid pay
  | .insert => paymentsPolicyBody db uid pay
  | .update => paymentsPolicyBody db uid pay
  | .delete => paymentsPolicyBody db uid pay

/-- The spec's owning-manager-or-admin condition on a student row `s`: the
actor's profile is sales staff and owns `s`, or the actor's profile is
superadmin. -/
def ownerOrAdmin (db : Database) (uid : String) (s : StudentRow) : Prop :=
  (∃ p ∈ db.profiles,
      p.id = uid ∧ (p.role = UserRole.sales ∨ p.role = UserRole.head_sales)
        ∧ s.manager_id = p.id)
  ∨ (∃ p ∈ db.profiles, p.id = uid ∧ p.role = UserRole.superadmin)

/-! Concrete fixtures used by witnesses and counterexamples. -/

/-- The `/users/*` entry of the permission table. -/
def usersWildcardEntry : RoutePermission :=
  { path := "/users/*", allowedRoles := [.superadmin],
    description := some "User management sub-pages - superadmin only" }

/-- A registered but not yet approved teacher profile. -/
def unapprovedProfile : Profile :=
  { id := "p1", email := "t@razgovor.example", role := .teacher, is_approved := false }

/-- An approved sales-manager profile. -/
def approvedSalesProfile : Profile :=
  { id := "p2", email := "s@razgovor.example", role := .sales, is_approved := true }

/-- An approved superadmin profile. -/
def superadminProfile : Profile :=
  { id := "admin1", email := "admin@razgovor.example", role := .superadmin, is_approved := true }

/-- Session state: authenticated, profile loaded, not approved. -/
def guardStateUnapproved : AuthState :=
  { user := some "u1", profile := some unapprovedProfile, isInitialized := true,
    isFetching := false, isLoading := false, error := none }

/-- Session state: authenticated, approved sales profile loaded. -/
def guardStateSales : AuthState :=
  { user := some "u2", profile := some approvedSalesProfile, isInitialized := true,
    isFetching := false, isLoading := false, error := none }

/-- Session state: authenticated, the profile fetch has not completed yet. -/
def initialLoadState : AuthState :=
  { user := some "u1", profile := none, isInitialized := false,
    isFetching := false, isLoading := false, error := none }

/-- Session state: authenticated with a profile fetch currently in flight. -/
def inFlightState : AuthState :=
  { user := some "u1", profile := none, isInitialized := false,
    isFetching := true, isLoading := false, error := none }

/-- Session state: authenticated with a profile already cached. -/
def cachedProfileState : AuthState :=
  { user := some "u3", profile := some approvedSalesProfile, isInitialized := true,
    isFetching := false, isLoading := false, error := none }

/-- A one-manager, one-student database instance. -/
def demoDb : Database :=
  { profiles := [{ id := "m1", role := .sales }],
    students := [{ id := "s1", manager_id := "m1" }] }

/-- The student row of `demoDb`. -/
def demoStudent : StudentRow := { id := "s1", manager_id := "m1" }

/-- A payment row belonging to `demoStudent`. -/
def demoPayment : PaymentRow := { id := "pay1", student_id := "s1" }

/-! Claim theorems. -/

/-- Claim C1, counterexample: the wildcard matcher of `canAccessRoute`
matches `/usersXYZ` against the `/users/*` entry even though `/usersXYZ`
does not begin with `/users/`, so — contrary to the claim — a path that
extends the prefix without a slash separator does match a wildcard entry;
observably, `canAccessRoute('teacher', '/usersXYZ')` is `false` where the
claim would make the path unlisted and hence allowed. -/
theorem routes_wildcard_counterexample :
    routeMatches usersWildcardEntry "/usersXYZ" = true
    ∧ jsStartsWith "/usersXYZ" "/users/" = false
    ∧ canAccessRoute (some UserRole.teacher) "/usersXYZ" = false := by
  decide

/-- Claim C1 as amended: a wildcard entry `<prefix>/*` matches a path if and
only if the path starts with the bare `<prefix>` (no slash separator
required). In particular the bare prefix itself satisfies every wildcard
entry's matcher, but for each wildcard entry of the table the first-match
search on the bare prefix resolves to the earlier exact entry carrying the
same allowed roles; and `/usersXYZ` is matched by `/users/*`, so
`canAccessRoute('teacher', '/usersXYZ')` is `false`. -/
theorem routes_wildcard_amended :
    (∀ entry ∈ protectedRoutes, jsEndsWith entry.path "/*" = true →
      ∀ path : String,
        (routeMatches entry path = true ↔
          jsStartsWith path (jsSliceDropTwo entry.path) = true))
    ∧ (∀ entry ∈ protectedRoutes, jsEndsWith entry.path "/*" = true →
        (protectedRoutes.find?
            (fun r => routeMatches r (jsSliceDropTwo entry.path))).map RoutePermission.path
          = some (jsSliceDropTwo entry.path)
        ∧ (protectedRoutes.find?
            (fun r => routeMatches r (jsSliceDropTwo entry.path))).map RoutePermission.allowedRoles
          = some entry.allowedRoles)
    ∧ canAccessRoute (some UserRole.teacher) "/usersXYZ" = false := by
  refine ⟨?_, by decide, by decide⟩
  intro entry _ hw path
  simp [routeMatches, hw]

/-- Witness for C1: the amended matcher law applied to the `/users/*` entry
at the concrete path `/users/abc`. -/
theorem routes_wildcard_amended_witness :
    routeMatches usersWildcardEntry "/users/abc" = true := by
  exact (routes_wildcard_amended.1 usersWildcardEntry (by decide) (by decide)
    "/users/abc").mpr (by decide)

/-- Claim C2, counterexample: `canAccessRoute` does allow superadmin on the
unlisted `/sales` path, but the `/sales` index page's own role check
(`hasAnyRole(['sales', 'head_sales'])`) rejects a superadmin profile and the
page throws a 403 error, so the superadmin actor cannot access every
implicit-public path. -/
theorem superadmin_access_counterexample :
    canAccessRoute (some UserRole.superadmin) "/sales" = true
    ∧ salesIndexPageAllows (some superadminProfile) = false := by
  decide

/-- Claim C2 as amended: `canAccessRoute('superadmin', path)` is true for
every path listed in `protectedRoutes` and for every path with no matching
table entry, but the `/sales` index page additionally gates itself on
`hasAnyRole(['sales', 'head_sales'])`, which denies every superadmin
profile (the page throws 403), so the superadmin actor does not reach the
`/sales` namespace pages. -/
theorem superadmin_access_amended :
    (∀ entry ∈ protectedRoutes,
      canAccessRoute (some UserRole.superadmin) entry.path = true)
    ∧ (∀ path : String,
        protectedRoutes.find? (fun r => routeMatches r path) = none →
          canAccessRoute (some UserRole.superadmin) path = true)
    ∧ (∀ p : Profile, p.role = UserRole.superadmin →
        salesIndexPageAllows (some p) = false) := by
  refine ⟨by decide, ?_, ?_⟩
  · intro path h
    simp [canAccessRoute, h]
  · intro p h
    simp only [salesIndexPageAllows, hasAnyRole, h]
    decide

/-- Witness for C2: superadmin passes `canAccessRoute` on the unlisted
`/sales` path, and the concrete superadmin profile fails the sales page's
own role check. -/
theorem superadmin_access_amended_witness :
    canAccessRoute (some UserRole.superadmin) "/sales" = true
    ∧ salesIndexPageAllows (some superadminProfile) = false := by
  exact ⟨superadmin_access_amended.2.1 "/sales" (by decide),
    superadmin_access_amended.2.2 superadminProfile rfl⟩

/-- Claim C4: `canAccessRoute('sales', '/students')` is false (the
`/students` entry allows only teacher, head_teaching and superadmin), and
for an authenticated, approved actor whose profile role is `sales` the
navigation guard redirects `/students` to the `/403` page. -/
theorem sales_students_forbidden :
    canAccessRoute (some UserRole.sales) "/students" = false
    ∧ ∀ (st : AuthState) (uid : String) (p : Profile),
        st.user = some uid → st.profile = some p → st.isInitialized = true →
        p.role = UserRole.sales → p.is_approved = true →
        authMiddleware st "/students" = some "/403" := by
  refine ⟨by decide, ?_⟩
  intro st uid p hu hp hinit hrole happ
  have hca : canAccessRoute (some p.role) "/students" = false := by
    rw [hrole]; decide
  have hpub : "/students" ∉ publicRoutes := by decide
  simp [authMiddleware, hu, hp, hinit, stateIsApproved, happ, hca, hpub]

/-- Witness for C4: the guard decision at the concrete approved-sales
session state navigating to `/students`. -/
theorem sales_students_forbidden_witness :
    authMiddleware guardStateSales "/students" = some "/403" := by
  exact sales_students_forbidden.2 guardStateSales "u2" approvedSalesProfile
    rfl rfl rfl rfl rfl

/-- Claim C10: `register` forwards the caller-supplied role verbatim into
the identity provider's user metadata, for every role — in particular for
each of the four roles offered by the registration form, the management
roles `head_teaching` and `head_sales` included — and the request carries
nothing but the credentials and that metadata (no session or privilege is
consulted). -/
theorem register_forwards_role :
    (∀ (email password fullName : String) (role : UserRole),
        (registerRequest email password fullName role).metadataRole = role
        ∧ (registerRequest email password fullName role).metadataFullName = fullName)
    ∧ availableRoles = [.teacher, .sales, .head_teaching, .head_sales]
    ∧ UserRole.head_teaching ∈ availableRoles
    ∧ UserRole.head_sales ∈ availableRoles := by
  exact ⟨fun _ _ _ _ => ⟨rfl, rfl⟩, rfl, by decide, by decide⟩

/-- Claim C3: with the actor authenticated and the profile loaded, an
unapproved profile sends every target path other than
`/auth/pending-approval` to `/auth/pending-approval`, while
`/auth/pending-approval` itself produces no redirect; and an approved
profile targeting `/auth/pending-approval` is redirected home (`/`). -/
theorem approval_gating (st : AuthState) (uid : String) (p : Profile)
    (hu : st.user = some uid) (hp : st.profile = some p)
    (hinit : st.isInitialized = true) :
    (p.is_approved = false →
      ∀ path : String, path ≠ "/auth/pending-approval" →
        authMiddleware st path = some "/auth/pending-approval")
    ∧ (p.is_approved = false →
        authMiddleware st "/auth/pending-approval" = none)
    ∧ (p.is_approved = true →
        authMiddleware st "/auth/pending-approval" = some "/") := by
  have hpend : "/auth/pending-approval" ∉ publicRoutes := by decide
  refine ⟨?_, ?_, ?_⟩
  · intro happ path hpath
    by_cases hc : path ∈ publicRoutes
    · simp [authMiddleware, hu, hp, hinit, stateIsApproved, happ, hc]
    · simp [authMiddleware, hu, hp, hinit, stateIsApproved, happ, hc, hpath]
  · intro happ
    simp [authMiddleware, hu, hp, hinit, stateIsApproved, happ, hpend]
  · intro happ
    simp [authMiddleware, hu, hp, hinit, stateIsApproved, happ, hpend]

/-- Witness for C3: the unapproved session state navigating to `/students`
is redirected to the pending-approval page. -/
theorem approval_gating_witness :
    authMiddleware guardStateUnapproved "/students" = some "/auth/pending-approval" := by
  exact (approval_gating guardStateUnapproved "u1" unapprovedProfile rfl rfl rfl).1
    rfl "/students" (by decide)

/-- Claim C5, evaluated at the failing input: with the actor authenticated
and the profile not yet loaded, the guard returns no value at all — no
redirect for `/students` and none for `/tariffs` — and the tariffs page's
own up-front check does not throw when the cached profile is null, so
nothing in the code blocks the navigation or the rendering of that
protected view while the profile is loading. -/
theorem defer_produces_no_redirect_and_no_block :
    authMiddleware initialLoadState "/students" = none
    ∧ authMiddleware initialLoadState "/tariffs" = none
    ∧ tariffsPageThrowsForbidden true none = false := by
  decide

/-- Claim C6: while a profile fetch is in flight (`isFetching = true`), a
further plain `fetchProfile()` call issues zero additional store requests
and leaves the session state untouched, so the one in-flight request stays
the only one. -/
theorem fetch_coalescing (st : AuthState) (result : FetchResult)
    (hin : st.isFetching = true) :
    (fetchProfile st false result).requests = 0
    ∧ (fetchProfile st false result).state = st := by
  simp [fetchProfile, hin]

/-- Witness for C6: the concrete in-flight session state. -/
theorem fetch_coalescing_witness :
    (fetchProfile inFlightState false (FetchResult.dbError "pending")).requests = 0
    ∧ (fetchProfile inFlightState false (FetchResult.dbError "pending")).state
        = inFlightState := by
  exact fetch_coalescing inFlightState (FetchResult.dbError "pending") rfl

/-- Claim C7, counterexample: when the identity provider's `signOut` fails,
`logout()` records the error and returns with the cached profile and
`isProfileLoaded` untouched — so it is not the case that every `logout()`
call clears the cached authorization state. -/
theorem logout_clears_counterexample :
    ((logout cachedProfileState (some "Network error")).1).profile
        = some approvedSalesProfile
    ∧ ((logout cachedProfileState (some "Network error")).1).isInitialized = true := by
  decide

/-- Claim C7 as amended: after every `logout()` call in which `signOut`
succeeds, the cached profile is null and `isProfileLoaded` is false, and
the clearing happens before the navigation to `/auth/login` (the state in
which `navigateTo` runs is already cleared); when `signOut` fails, `logout`
surfaces the error and returns without navigating and without clearing the
cached profile. -/
theorem logout_clears_amended (st : AuthState) :
    ((logout st none).1.profile = none
      ∧ (logout st none).1.isInitialized = false
      ∧ (logout st none).2 = some "/auth/login"
      ∧ (logoutPreNavState st).profile = none
      ∧ (logoutPreNavState st).isInitialized = false)
    ∧ ∀ msg : String,
        (logout st (some msg)).1.profile = st.profile
        ∧ (logout st (some msg)).1.isInitialized = st.isInitialized
        ∧ (logout st (some msg)).2 = none
        ∧ (logout st (some msg)).1.error = some msg := by
  refine ⟨⟨rfl, rfl, rfl, rfl, rfl⟩, fun msg => ⟨rfl, rfl, rfl, rfl⟩⟩

/-- Claim C8, counterexample: a failing profile fetch during initial load
leaves the exposed error state untouched (`none`) — the failure is logged to
the console only, so no error string is surfaced through the session
cache's error state as the claim asserts. -/
theorem fetch_error_counterexample :
    (fetchProfile initialLoadState false (FetchResult.dbError "row missing")).state.error
        = none
    ∧ (fetchProfile initialLoadState false
        (FetchResult.dbError "row missing")).state.isInitialized = false
    ∧ (fetchProfile initialLoadState false
        (FetchResult.dbError "row missing")).state.profile = none := by
  decide

/-- Claim C8 as amended: a failing profile fetch that actually reaches the
store (user present, no fetch in flight, nothing cached) issues its one
request, installs no profile, leaves `isProfileLoaded` unchanged (hence
still false on initial load) and leaves the exposed error state unchanged —
it does not surface the failure there. -/
theorem fetch_error_amended (st : AuthState) (msg : String)
    (hu : st.user.isSome = true) (hf : st.isFetching = false)
    (hp : st.profile = none) :
    (fetchProfile st false (FetchResult.dbError msg)).state.profile = none
    ∧ (fetchProfile st false (FetchResult.dbError msg)).state.isInitialized
        = st.isInitialized
    ∧ (fetchProfile st false (FetchResult.dbError msg)).state.error = st.error
    ∧ (fetchProfile st false (FetchResult.dbError msg)).requests = 1
    ∧ (fetchProfile st false (FetchResult.dbError msg)).returned = none := by
  obtain ⟨u, hu2⟩ := Option.isSome_iff_exists.mp hu
  simp [fetchProfile, hu2, hf, hp]

/-- Witness for C8: the amended statement at the concrete initial-load
state with a missing profile row. -/
theorem fetch_error_amended_witness :
    (fetchProfile initialLoadState false
        (FetchResult.dbError "row missing")).state.error = initialLoadState.error
    ∧ (fetchProfile initialLoadState false
        (FetchResult.dbError "row missing")).requests = 1 := by
  have h := fetch_error_amended initialLoadState "row missing" rfl rfl rfl
  exact ⟨h.2.2.1, h.2.2.2.1⟩

/-- The `students` policy body holds exactly on the owning-manager-or-admin
condition. -/
lemma studentsPolicyBody_iff (db : Database) (uid : String) (s : StudentRow) :
    studentsPolicyBody db uid s = true ↔ ownerOrAdmin db uid s := by
  simp only [studentsPolicyBody, ownerOrAdmin, Bool.or_eq_true, List.any_eq_true,
    Bool.and_eq_true, beq_iff_eq]
  constructor
  · rintro (⟨p, hmem, ⟨hpid, hrole⟩, hmgr⟩ | ⟨p, hmem, hpid, hrole⟩)
    · exact Or.inl ⟨p, hmem, hpid, hrole, hmgr⟩
    · exact Or.inr ⟨p, hmem, hpid, hrole⟩
  · rintro (⟨p, hmem, hpid, hrole, hmgr⟩ | ⟨p, hmem, hpid, hrole⟩)
    · exact Or.inl ⟨p, hmem, ⟨hpid, hrole⟩, hmgr⟩
    · exact Or.inr ⟨p, hmem, hpid, hrole⟩

/-- When the parent student row exists and is the unique row with the
payment's `student_id`, the `student_payments` policy body holds exactly on
the owning-manager-or-admin condition for that parent row. -/
lemma paymentsPolicyBody_iff (db : Database) (uid : String) (pay : PaymentRow)
    (s : StudentRow) (hs : s ∈ db.students) (hid : s.id = pay.student_id)
    (huniq : ∀ t ∈ db.students, t.id = pay.student_id → t = s) :
    paymentsPolicyBody db uid pay = true ↔ ownerOrAdmin db uid s := by
  simp only [paymentsPolicyBody, ownerOrAdmin, Bool.or_eq_true, List.any_eq_true,
    Bool.and_eq_true, beq_iff_eq]
  constructor
  · rintro ⟨t, ht, p, hpmem, ⟨hpid, htid⟩, hcond⟩
    have hts : t = s := huniq t ht htid
    subst hts
    rcases hcond with ⟨hrole, hmgr⟩ | hrole
    · exact Or.inl ⟨p, hpmem, hpid, hrole, hmgr⟩
    · exact Or.inr ⟨p, hpmem, hpid, hrole⟩
  · rintro (⟨p, hpmem, hpid, hrole, hmgr⟩ | ⟨p, hpmem, hpid, hrole⟩)
    · exact ⟨s, hs, p, hpmem, ⟨hpid, hid⟩, Or.inl ⟨hrole, hmgr⟩⟩
    · exact ⟨s, hs, p, hpmem, ⟨hpid, hid⟩, Or.inr hrole⟩

/-- Claim C9: for each of select, insert, update and delete, the
`student_payments` row policy is equivalent — through the payment's
`student_id` join, given referential integrity (the parent student row
exists and `students.id` is unique) — to the owning-manager-or-admin
condition, which is exactly the condition the `students` row policy
enforces on the parent row. -/
theorem payments_policy_refines_students (op : SqlOp) (db : Database)
    (uid : String) (pay : PaymentRow) (s : StudentRow)
    (hs : s ∈ db.students) (hid : s.id = pay.student_id)
    (huniq : ∀ t ∈ db.students, t.id = pay.student_id → t = s) :
    (paymentsPolicy op db uid pay = true ↔ ownerOrAdmin db uid s)
    ∧ (studentsPolicy op db uid s = true ↔ ownerOrAdmin db uid s) := by
  cases op <;>
    exact ⟨paymentsPolicyBody_iff db uid pay s hs hid huniq,
      studentsPolicyBody_iff db uid s⟩

/-- Witness for C9: in the one-manager, one-student database the owning
manager passes the payments select policy via the theorem's equivalence. -/
theorem payments_policy_refines_students_witness :
    paymentsPolicy SqlOp.select demoDb "m1" demoPayment = true := by
  have h := payments_policy_refines_students SqlOp.select demoDb "m1"
    demoPayment demoStudent (by decide) rfl (by decide)
  exact h.1.mpr
    (Or.inl ⟨{ id := "m1", role := UserRole.sales }, by decide, rfl, Or.inl rfl, rfl⟩)

end Razgovor
